import Mathlib

/- Verification development for the gee HTTP gateway (Rust).

   The definitions below are a shallow embedding of the request-routing and
   protocol-adaptation layer of the repository:
   - Service.is_static_request and Service.resolve_static_path from
     src/gee/src/upstream/service.rs (the classifier and the path resolver),
   - the response assembly match of Service.call (same file),
   - serve_file from src/gee/src/downstream/file.rs,
   - call_application from src/gee/src/downstream/application.rs,
   - Environ.new and Environ.from_request from
     src/gee/src/handlers/python/environ.rs.

   Modelling conventions:
   - Rust String and str are Lean String; str.starts_with is a byte prefix
     test, which on valid UTF-8 coincides with the codepoint prefix test, so
     it is embedded as List.isPrefixOf on the char lists (String.data).
   - The Rust byte slice expression path[p.len()..], taken only after
     starts_with(p) succeeded, lands on a char boundary and equals dropping
     the char count of p, so it is embedded as List.drop on char lists.
   - std::collections::HashMap iterates its entries in an order that is not
     the insertion order and is unspecified; the map is therefore embedded as
     a List of (key, value) pairs standing for one concrete iteration order,
     and claims about ordering quantify over such lists.
   - Panics are made explicit as dedicated result constructors.
   - File system reads are embedded as an oracle String to Option (List Nat)
     standing for the outcome of std::fs::read. -/

namespace Gee

/- Byte view of an ASCII string: for the ASCII literals appearing in this
   development the codepoints equal the UTF-8 bytes, so Vec of u8 contents of
   a literal is its codepoint list. -/
def strBytes (s : String) : List Nat :=
  s.data.map Char.toNat

/- Embeds Service.is_static_request (upstream/service.rs lines 26 to 30):
   self.static_routes.iter().any(|(server_path, _)| path.starts_with(server_path)) -/
def isStaticRequest (routes : List (String × String)) (path : String) : Bool :=
  routes.any (fun r => r.1.data.isPrefixOf path.data)

/- Result of Service.resolve_static_path with the panic made explicit:
   noMatch embeds the early return None; panicked embeds the
   chars().last().unwrap() panic on the empty concatenated string. -/
inductive ResolveResult where
  | noMatch : ResolveResult
  | panicked : ResolveResult
  | resolved : String → ResolveResult
  deriving DecidableEq

/- Embeds Service.resolve_static_path (upstream/service.rs lines 38 to 58):
   the first entry of the iteration whose key is a string prefix of path is
   selected; its value is cloned and the rest of path after the key is pushed
   onto it; if the final character of the result is a slash, index.html is
   pushed as well. The unwrap of the final character panics when the
   concatenated string is empty. -/
def staticPathOf (route : String × String) (path : String) : String :=
  route.2 ++ String.mk (path.data.drop route.1.data.length)

/- The tail of Service.resolve_static_path once a route is selected
   (upstream/service.rs lines 50 to 57): staticPathOf names the Rust local
   static_path; if the final character of the concatenated path is a slash,
   index.html is pushed; the unwrap of the final character panics when the
   concatenated string is empty. -/
def resolveRoute (route : String × String) (path : String) : ResolveResult :=
  match (staticPathOf route path).data.getLast? with
  | none => ResolveResult.panicked
  | some c =>
    if c = '/' then ResolveResult.resolved (staticPathOf route path ++ "index.html")
    else ResolveResult.resolved (staticPathOf route path)

/- The head of Service.resolve_static_path: the first entry of the iteration
   whose key is a string prefix of path is selected and handed to
   resolveRoute; with no such entry the function returns None. -/
def resolveStaticPath (routes : List (String × String)) (path : String) : ResolveResult :=
  match routes.find? (fun r => r.1.data.isPrefixOf path.data) with
  | none => ResolveResult.noMatch
  | some route => resolveRoute route path

/- Embeds serve_file (downstream/file.rs lines 4 to 11): the outcome of
   fs::read is passed in as an oracle; Ok contents map to Some, every failure
   maps to None. Nothing else is consulted: the function has no access to the
   ignored_files configuration. -/
def serveFile (fsRead : String → Option (List Nat)) (path : String) : Option (List Nat) :=
  match fsRead path with
  | some contents => some contents
  | none => none

/- Embeds the response assembly match of Service.call
   (upstream/service.rs lines 87 to 91): Some content gives status 200 with
   the content as body; None gives status 404 with an empty body. -/
def assembleResponse (outcome : Option (List Nat)) : Nat × List Nat :=
  match outcome with
  | some content => (200, content)
  | none => (404, [])

/- Embeds UrlScheme (handlers/python/environ.rs lines 10 to 13). -/
inductive UrlScheme where
  | HTTP : UrlScheme
  | HTTPS : UrlScheme
  deriving DecidableEq

/- Embeds the Environ struct of handlers/python/environ.rs: the execution
   context handed to the application. Methods and protocol versions are kept
   as strings. -/
structure Environ where
  request_method : String
  script_name : String
  path_info : String
  query_string : String
  content_type : String
  content_length : String
  server_name : String
  server_port : String
  server_protocol : String
  http_variables : List (String × String)
  wsgi_version : Nat × Nat
  wsgi_url_scheme : UrlScheme
  wsgi_multithread : Bool
  wsgi_multiprocess : Bool
  wsgi_run_once : Bool

/- Embeds Environ.new (handlers/python/environ.rs lines 99 to 127): the nine
   explicit arguments are stored and every remaining field is a constant; in
   particular http_variables is HashMap.new(), the empty map. -/
def Environ.new (request_method script_name path_info query_string
    content_type content_length server_name server_port
    server_protocol : String) : Environ :=
  { request_method := request_method
    script_name := script_name
    path_info := path_info
    query_string := query_string
    content_type := content_type
    content_length := content_length
    server_name := server_name
    server_port := server_port
    server_protocol := server_protocol
    http_variables := []
    wsgi_version := (1, 0)
    wsgi_url_scheme := UrlScheme.HTTPS
    wsgi_multithread := false
    wsgi_multiprocess := false
    wsgi_run_once := false }

/- A wire request as the transport hands it over: header names are stored
   normalized to lowercase, as the hyper HeaderMap does. -/
structure Request where
  method : String
  path : String
  query : Option String
  headers : List (String × String)
  version : String

/- Embeds http::HeaderValue::to_str visibility check: a value converts to a
   str only when every byte is visible ASCII (32 to 126) or horizontal tab. -/
def isVisibleAscii (c : Char) : Bool :=
  decide ((32 ≤ c.toNat ∧ c.toNat < 127) ∨ c.toNat = 9)

/- Embeds HeaderValue.to_str as an Option. -/
def headerValueToStr (value : String) : Option String :=
  if value.data.all isVisibleAscii then some value else none

/- Embeds the header extraction expression of Environ.from_request
   (handlers/python/environ.rs lines 135 to 146):
   req.headers().get(name).unwrap_or(&HeaderValue::from_name(NAME)).to_str().unwrap_or("").
   HeaderValue::from_name turns the header NAME into a value whose bytes are
   the name itself, so a missing header falls back to the string of the
   header name, which passes to_str unchanged. -/
def headerOrNameDefault (headers : List (String × String)) (name : String) : String :=
  match headers.find? (fun h => h.1 == name) with
  | some h => (headerValueToStr h.2).getD ""
  | none => (headerValueToStr name).getD ""

/- Embeds Environ.from_request (handlers/python/environ.rs lines 129 to 151). -/
def Environ.fromRequest (req : Request) : Environ :=
  Environ.new req.method "app" req.path (req.query.getD "")
    (headerOrNameDefault req.headers "content-type")
    (headerOrNameDefault req.headers "content-length")
    "" "" req.version

/- Embeds call_application (downstream/application.rs lines 3 to 8): it
   ignores the execution context and always returns the canned body. -/
def callApplication (_environ : Environ) : Option (List Nat) :=
  some (strBytes ("Response from Python"))

/- Outcome of Service.call on one request: either a wire response or a crash
   of the request handler (an expect or unwrap panic with its message). -/
inductive CallResult where
  | response : Nat → List Nat → CallResult
  | crash : String → CallResult
  deriving DecidableEq

/- Embeds Service.call (upstream/service.rs lines 73 to 94): a static request
   is resolved (the expect on None becomes a crash, and the panic inside the
   resolver propagates) and served from the file oracle; any other request is
   turned into an Environ and given to call_application; the outcome is
   assembled into a response. -/
def serviceCall (routes : List (String × String))
    (fsRead : String → Option (List Nat)) (req : Request) : CallResult :=
  if isStaticRequest routes req.path then
    match resolveStaticPath routes req.path with
    | ResolveResult.resolved static_path =>
      let r := assembleResponse (serveFile fsRead static_path)
      CallResult.response r.1 r.2
    | ResolveResult.noMatch => CallResult.crash ("Cannot resolve static path")
    | ResolveResult.panicked => CallResult.crash ("called Option::unwrap() on a None value")
  else
    let r := assembleResponse (callApplication (Environ.fromRequest req))
    CallResult.response r.1 r.2

/- Concrete inputs used by the claim theorems. -/

def reqMissing : Request :=
  { method := "GET", path := "/missing", query := none, headers := [], version := "HTTP/1.1" }

def reqWithXFoo : Request :=
  { method := "GET", path := "/app", query := none,
    headers := [("x-foo", "bar")], version := "HTTP/1.1" }

def reqNoHeaders : Request :=
  { method := "POST", path := "/app", query := none, headers := [], version := "HTTP/1.1" }

def reqTextPlain : Request :=
  { method := "POST", path := "/app", query := none,
    headers := [("content-type", "text/plain")], version := "HTTP/1.1" }

def secretFs : String → Option (List Nat) :=
  fun p => if p = "a.secret" then some (strBytes ("secret")) else none

/- Helper lemmas. -/

theorem isPrefixOf_char_iff (a b : List Char) :
    a.isPrefixOf b = true ↔ ∃ t, a ++ t = b := by
  induction a generalizing b with
  | nil => simp [List.isPrefixOf]
  | cons x xs ih =>
    cases b with
    | nil => simp [List.isPrefixOf]
    | cons y ys =>
      simp [List.isPrefixOf, ih, List.cons.injEq, Bool.and_eq_true, beq_iff_eq]

theorem exists_find_of_any {α : Type} (p : α → Bool) (l : List α)
    (h : l.any p = true) : ∃ x, l.find? p = some x := by
  induction l with
  | nil => simp at h
  | cons x xs ih =>
    by_cases hp : p x = true
    · exact ⟨x, by simp [List.find?, hp]⟩
    · have hb : p x = false := by
        revert hp
        cases p x <;> simp
      have hany : xs.any p = true := by
        revert h
        simp [List.any_cons, hb]
      obtain ⟨y, hy⟩ := ih hany
      exact ⟨y, by simp [List.find?, hb, hy]⟩

theorem static_implies_find (routes : List (String × String)) (path : String)
    (h : isStaticRequest routes path = true) :
    ∃ r, routes.find? (fun r => r.1.data.isPrefixOf path.data) = some r := by
  exact exists_find_of_any _ _ h

/- Claim theorems. -/

/-- Claim C1: for every request path and every route table, the request is
classified as static if and only if some registered static route prefix is a
raw codepoint prefix of the path; in particular the path /static2 is
classified static when the prefix /static is registered, with no attention to
path segment boundaries. -/
theorem C1_classification_iff_raw_string_prefix :
    (∀ (routes : List (String × String)) (path : String),
        isStaticRequest routes path = true ↔
          ∃ r, r ∈ routes ∧ ∃ t, r.1.data ++ t = path.data) ∧
    isStaticRequest [("/static", "./static/")] "/static2" = true := by
  constructor
  · intro routes path
    simp only [isStaticRequest, List.any_eq_true, isPrefixOf_char_iff]
  · decide

/-- Claim C2 counterexample: with the static route mapping /static to
./static/, the resolver does not yield ./static/a.txt for /static/a.txt (the
stripped suffix keeps its leading slash, doubling the separator), and for
exactly /static it does not yield ./static/ unchanged (index.html is
appended, because the target root ends in a slash). -/
theorem C2_counterexample :
    resolveStaticPath [("/static", "./static/")] "/static/a.txt"
      ≠ ResolveResult.resolved ("./static/a.txt") ∧
    resolveStaticPath [("/static", "./static/")] "/static"
      ≠ ResolveResult.resolved ("./static/") := by
  decide

/-- Claim C2 as amended: with the static route mapping /static to ./static/,
the resolver yields ./static//a.txt for /static/a.txt, ./static//index.html
for /static/, and ./static/index.html for exactly /static, since the
concatenation keeps the leading slash of the stripped suffix and the default
document is appended exactly when the final character of the concatenation is
a slash. -/
theorem C2_resolver_boundary_cases :
    resolveStaticPath [("/static", "./static/")] "/static/a.txt"
      = ResolveResult.resolved ("./static//a.txt") ∧
    resolveStaticPath [("/static", "./static/")] "/static/"
      = ResolveResult.resolved ("./static//index.html") ∧
    resolveStaticPath [("/static", "./static/")] "/static"
      = ResolveResult.resolved ("./static/index.html") := by
  decide

/-- Claim C3: the route table is a std HashMap, so the resolver sees its
entries in an unspecified iteration order; two iteration orders of one and
the same pair of registered routes give different resolved paths for a path
matched by both, so the outcome is not determined by registration order. -/
theorem C3_resolution_depends_on_iteration_order :
    List.Perm [("/static", "./a/"), ("/static/img", "./b/")]
      [("/static/img", "./b/"), ("/static", "./a/")] ∧
    resolveStaticPath [("/static", "./a/"), ("/static/img", "./b/")] "/static/img/x"
      ≠ resolveStaticPath [("/static/img", "./b/"), ("/static", "./a/")] "/static/img/x" := by
  constructor
  · exact List.Perm.swap _ _ _
  · decide

/-- Claim C4: a request matching no static prefix, with no application
configured anywhere, is still handed to call_application, which returns a
canned Some body, so the dispatcher answers 200 with that body instead of
the 404 with empty body the specification demands. -/
theorem C4_unmatched_request_gets_stub_200 :
    serviceCall [] (fun _ => none) reqMissing
      = CallResult.response 200 (strBytes ("Response from Python")) ∧
    serviceCall [] (fun _ => none) reqMissing ≠ CallResult.response 404 [] := by
  decide

/-- Claim C5: the environment builder leaves http_variables empty for every
request; in particular a request carrying the header x-foo: bar produces no
entry for it, against the claim that every request header appears in the
map. -/
theorem C5_http_variables_always_empty :
    (∀ req : Request, (Environ.fromRequest req).http_variables = []) ∧
    (Environ.fromRequest reqWithXFoo).http_variables = [] := by
  exact ⟨fun req => rfl, rfl⟩

/-- Claim C6: a request with no Content-Length header gets content_length
equal to the string content-length (the header name, via
HeaderValue::from_name) rather than the empty string, and likewise for
Content-Type; a present Content-Type header with a visible ASCII value is
copied verbatim. -/
theorem C6_missing_header_defaults_to_header_name :
    (Environ.fromRequest reqNoHeaders).content_length = "content-length" ∧
    (Environ.fromRequest reqNoHeaders).content_length ≠ "" ∧
    (Environ.fromRequest reqNoHeaders).content_type = "content-type" ∧
    (Environ.fromRequest reqTextPlain).content_type = "text/plain" := by
  decide

/-- Claim C7: the response assembler turns Some bytes into status 200 with
those bytes as body and None into status 404 with an empty body, and no
status other than 200 and 404 is ever produced by it. -/
theorem C7_assembler_statuses :
    (∀ b : List Nat, assembleResponse (some b) = (200, b)) ∧
    assembleResponse none = (404, []) ∧
    (∀ outcome : Option (List Nat),
        (assembleResponse outcome).1 = 200 ∨ (assembleResponse outcome).1 = 404) := by
  refine ⟨fun b => rfl, rfl, fun outcome => ?_⟩
  cases outcome
  · exact Or.inr rfl
  · exact Or.inl rfl

/-- Claim C8: static path resolution is not total: when the registered route
maps /x to the empty target root and the request path is exactly /x, the
concatenated path is empty and the resolver hits the unwrap panic on the last
character of an empty string, against the claim that it never panics. -/
theorem C8_resolver_panics_on_empty_concat :
    resolveStaticPath [("/x", "")] "/x" = ResolveResult.panicked := by
  decide

/-- Claim C9: serve_file is exactly the file read: its result equals the read
oracle outcome for every path, and it has no access to the ignored_files
globs, so a file whose path matches such a glob (here a.secret) is still
served when the read succeeds. -/
theorem C9_serve_file_never_consults_ignored_globs :
    (∀ (fsRead : String → Option (List Nat)) (path : String),
        serveFile fsRead path = fsRead path) ∧
    serveFile secretFs "a.secret" = some (strBytes ("secret")) := by
  constructor
  · intro fsRead path
    cases h : fsRead path <;> simp [serveFile, h]
  · decide

/-- Claim C10 counterexample: with the route /y mapped to the empty target
root and the request path exactly /y, classification says static, yet the
resolver does not return Some resolved path: it panics, so the claim that a
static classification always yields Some fails at this input. -/
theorem C10_counterexample :
    isStaticRequest [("/y", "")] "/y" = true ∧
    resolveStaticPath [("/y", "")] "/y" = ResolveResult.panicked ∧
    (∀ s : String, resolveStaticPath [("/y", "")] "/y" ≠ ResolveResult.resolved s) := by
  refine ⟨by decide, by decide, fun s h => ?_⟩
  rw [show resolveStaticPath [("/y", "")] "/y" = ResolveResult.panicked from by decide] at h
  exact ResolveResult.noConfusion h

/-- Claim C10 as amended: whenever classification says static, resolution
never returns None (it returns a resolved path, or panics on an empty
concatenation), and consequently the dispatcher never reaches the expect
message Cannot resolve static path. -/
theorem C10_static_never_resolves_to_none :
    (∀ (routes : List (String × String)) (path : String),
        isStaticRequest routes path = true →
          resolveStaticPath routes path ≠ ResolveResult.noMatch) ∧
    (∀ (routes : List (String × String)) (fsRead : String → Option (List Nat))
        (req : Request),
        serviceCall routes fsRead req ≠ CallResult.crash ("Cannot resolve static path")) := by
  have route_cases : ∀ (route : String × String) (path : String),
      resolveRoute route path ≠ ResolveResult.noMatch := by
    intro route path
    unfold resolveRoute
    cases (staticPathOf route path).data.getLast? with
    | none => exact fun hc => ResolveResult.noConfusion hc
    | some c => by_cases hc : c = '/' <;> simp [hc]
  have key : ∀ (routes : List (String × String)) (path : String),
      isStaticRequest routes path = true →
        resolveStaticPath routes path ≠ ResolveResult.noMatch := by
    intro routes path h
    obtain ⟨r, hr⟩ := static_implies_find routes path h
    unfold resolveStaticPath
    rw [hr]
    exact route_cases r path
  refine ⟨key, fun routes fsRead req => ?_⟩
  by_cases h : isStaticRequest routes req.path = true
  · cases hres : resolveStaticPath routes req.path with
    | noMatch => exact absurd hres (key routes req.path h)
    | panicked =>
      simp only [serviceCall, h, if_true, hres]
      intro hc
      have := CallResult.crash.inj hc
      simp at this
    | resolved p =>
      simp only [serviceCall, h, if_true, hres]
      intro hc
      exact CallResult.noConfusion hc
  · have hb : isStaticRequest routes req.path = false := by
      revert h
      cases isStaticRequest routes req.path <;> simp
    simp only [serviceCall, hb, Bool.false_eq_true, if_false]
    intro hc
    exact CallResult.noConfusion hc

end Gee
